import Mathlib

/-!
A shallow embedding of the circuit representation, the combinational
evaluation semantics, and the pin-coordinate resolution of the CircuitGen
application (src/src/App.js), together with theorems checking the
specification claims.

JavaScript values flowing through the recipe logic functions are modelled by
the type JSVal (integer numbers, NaN, booleans, undefined), with the JS
coercion rules (ToInt32, ToBoolean, ToNumber) made explicit.  The
display-only explanation text of a recipe is omitted; everything else follows
the source file.
-/

namespace CircuitGen

/-- A JavaScript value as used by the recipe logic functions: an integer
number, NaN, a boolean, or undefined. -/
inductive JSVal where
  | num (n : Int)
  | nan
  | boolean (b : Bool)
  | undefined
deriving DecidableEq

/-- JS ToNumber restricted to the values above; none stands for NaN. -/
def toNumOpt : JSVal → Option Int
  | .num n => some n
  | .nan => none
  | .boolean b => some (if b then 1 else 0)
  | .undefined => none

/-- JS ToBoolean (truthiness of a value). -/
def toBool : JSVal → Bool
  | .num n => decide (n ≠ 0)
  | .nan => false
  | .boolean b => b
  | .undefined => false

/-- Wrap an integer into the signed 32-bit range, as JS ToInt32 does. -/
def wrap32 (n : Int) : Int := (n + 2147483648) % 4294967296 - 2147483648

/-- Twos-complement 32-bit encoding of an int32 value, as a natural number. -/
def toUint32 (n : Int) : Nat := (n % 4294967296).toNat

/-- JS ToInt32 of a value: NaN and undefined coerce to 0. -/
def toInt32 (v : JSVal) : Int := wrap32 ((toNumOpt v).getD 0)

/-- JS bitwise AND. -/
def jsAnd (a b : JSVal) : JSVal :=
  .num (wrap32 (Int.ofNat (Nat.land (toUint32 (toInt32 a)) (toUint32 (toInt32 b)))))

/-- JS bitwise OR. -/
def jsOr (a b : JSVal) : JSVal :=
  .num (wrap32 (Int.ofNat (Nat.lor (toUint32 (toInt32 a)) (toUint32 (toInt32 b)))))

/-- JS bitwise XOR. -/
def jsXor (a b : JSVal) : JSVal :=
  .num (wrap32 (Int.ofNat (Nat.xor (toUint32 (toInt32 a)) (toUint32 (toInt32 b)))))

/-- JS logical NOT: negate the truthiness, yielding a boolean. -/
def jsNot (v : JSVal) : JSVal := .boolean (!toBool v)

/-- JS signed right shift: arithmetic shift of the ToInt32 value, which is
floor division by a power of two; the shift count is taken modulo 32. -/
def jsShr (a b : JSVal) : JSVal :=
  .num (Int.fdiv (toInt32 a) ((2 : Int) ^ (toUint32 (toInt32 b) % 32)))

/-- JS multiplication on the numeric values occurring here; NaN propagates. -/
def jsMul (a b : JSVal) : JSVal :=
  match toNumOpt a, toNumOpt b with
  | some x, some y => .num (x * y)
  | _, _ => .nan

/-- JS addition on the numeric values occurring here; NaN propagates. -/
def jsAdd (a b : JSVal) : JSVal :=
  match toNumOpt a, toNumOpt b with
  | some x, some y => .num (x + y)
  | _, _ => .nan

/-- JS strict equality on the values occurring here; NaN compares false to
everything, including itself. -/
def jsStrictEq : JSVal → JSVal → Bool
  | .num x, .num y => decide (x = y)
  | .boolean x, .boolean y => x == y
  | .undefined, .undefined => true
  | _, _ => false

/-- JS greater-than: numeric comparison, false if either side is NaN. -/
def jsGt (a b : JSVal) : Bool :=
  match toNumOpt a, toNumOpt b with
  | some x, some y => decide (y < x)
  | _, _ => false

/-- JS less-than: numeric comparison, false if either side is NaN. -/
def jsLt (a b : JSVal) : Bool :=
  match toNumOpt a, toNumOpt b with
  | some x, some y => decide (x < y)
  | _, _ => false

/-- Array read i[k]: an out-of-range read yields undefined, never an error. -/
def idx (l : List JSVal) (k : Nat) : JSVal := (l.get? k).getD .undefined

/-- Array element assignment out[k] = v for an in-range integer index.  An
out-of-range or NaN index leaves the existing elements unchanged (a NaN index
writes a plain object property; the recipes below only produce in-range or
NaN indices on the input domain used by the theorems, so the JS array-growing
behaviour of a large numeric index is not modelled). -/
def jsArraySet (l : List JSVal) (k : JSVal) (v : JSVal) : List JSVal :=
  match k with
  | .num n => if 0 ≤ n ∧ n < l.length then l.set n.toNat v else l
  | _ => l

/-- Logic of the basic_gates recipe: (i) => [i[0]&i[1], i[0]|i[1]]. -/
def basic_gates_logic (i : List JSVal) : List JSVal :=
  [jsAnd (idx i 0) (idx i 1), jsOr (idx i 0) (idx i 1)]

/-- Logic of not_using_nand: (i) => [!i[0]]. -/
def not_using_nand_logic (i : List JSVal) : List JSVal :=
  [jsNot (idx i 0)]

/-- Logic of and_using_nand: (i) => [!!(i[0]&i[1])]. -/
def and_using_nand_logic (i : List JSVal) : List JSVal :=
  [jsNot (jsNot (jsAnd (idx i 0) (idx i 1)))]

/-- Logic of or_using_nand: (i) => [i[0]|i[1]]. -/
def or_using_nand_logic (i : List JSVal) : List JSVal :=
  [jsOr (idx i 0) (idx i 1)]

/-- Logic of not_using_nor: (i) => [!i[0]]. -/
def not_using_nor_logic (i : List JSVal) : List JSVal :=
  [jsNot (idx i 0)]

/-- Logic of or_using_nor: (i) => [i[0]|i[1]]. -/
def or_using_nor_logic (i : List JSVal) : List JSVal :=
  [jsOr (idx i 0) (idx i 1)]

/-- Logic of and_using_nor: (i) => [i[0]&i[1]]. -/
def and_using_nor_logic (i : List JSVal) : List JSVal :=
  [jsAnd (idx i 0) (idx i 1)]

/-- Logic of half_adder: (i) => [i[0]^i[1], i[0]&i[1]]. -/
def half_adder_logic (i : List JSVal) : List JSVal :=
  [jsXor (idx i 0) (idx i 1), jsAnd (idx i 0) (idx i 1)]

/-- Logic of full_adder: (i) => [i[0]^i[1]^i[2], (i[0]&i[1])|(i[2]&(i[0]^i[1]))]. -/
def full_adder_logic (i : List JSVal) : List JSVal :=
  [jsXor (jsXor (idx i 0) (idx i 1)) (idx i 2),
   jsOr (jsAnd (idx i 0) (idx i 1)) (jsAnd (idx i 2) (jsXor (idx i 0) (idx i 1)))]

/-- Logic of half_subtractor: (i) => [i[0]^i[1], (!i[0])&i[1]]. -/
def half_subtractor_logic (i : List JSVal) : List JSVal :=
  [jsXor (idx i 0) (idx i 1), jsAnd (jsNot (idx i 0)) (idx i 1)]

/-- Logic of full_subtractor: diff = i[0]^i[1]^i[2],
bout = ((!i[0])&i[1]) | ((!(i[0]^i[1]))&i[2]). -/
def full_subtractor_logic (i : List JSVal) : List JSVal :=
  [jsXor (jsXor (idx i 0) (idx i 1)) (idx i 2),
   jsOr (jsAnd (jsNot (idx i 0)) (idx i 1))
        (jsAnd (jsNot (jsXor (idx i 0) (idx i 1))) (idx i 2))]

/-- Logic of multiplier_2bit: a = i[0]+i[1]*2, b = i[2]+i[3]*2, p = a*b,
result [p&1, (p>>1)&1, (p>>2)&1, (p>>3)&1]. -/
def multiplier_2bit_logic (i : List JSVal) : List JSVal :=
  let a := jsAdd (idx i 0) (jsMul (idx i 1) (.num 2))
  let b := jsAdd (idx i 2) (jsMul (idx i 3) (.num 2))
  let p := jsMul a b
  [jsAnd p (.num 1), jsAnd (jsShr p (.num 1)) (.num 1),
   jsAnd (jsShr p (.num 2)) (.num 1), jsAnd (jsShr p (.num 3)) (.num 1)]

/-- Logic of binary_gray: (i) => [i[0], i[0]^i[1], i[1]^i[2], i[2]^i[3]]. -/
def binary_gray_logic (i : List JSVal) : List JSVal :=
  [idx i 0, jsXor (idx i 0) (idx i 1), jsXor (idx i 1) (idx i 2),
   jsXor (idx i 2) (idx i 3)]

/-- Logic of mux_74153: sel = i[1]*2 + i[0]; returns [i[2+sel]] for sel in
0..3 and [0] otherwise. -/
def mux_74153_logic (i : List JSVal) : List JSVal :=
  let sel := jsAdd (jsMul (idx i 1) (.num 2)) (idx i 0)
  if jsStrictEq sel (.num 0) then [idx i 2]
  else if jsStrictEq sel (.num 1) then [idx i 3]
  else if jsStrictEq sel (.num 2) then [idx i 4]
  else if jsStrictEq sel (.num 3) then [idx i 5]
  else [.num 0]

/-- Logic of decoder_74139: all-high when disabled; otherwise the selected
line is pulled low and the whole vector is inverted for LED display. -/
def decoder_74139_logic (i : List JSVal) : List JSVal :=
  if toBool (idx i 2) then [.num 1, .num 1, .num 1, .num 1]
  else
    let sel := jsAdd (jsMul (idx i 1) (.num 2)) (idx i 0)
    let out := jsArraySet [JSVal.num 1, .num 1, .num 1, .num 1] sel (.num 0)
    out.map jsNot

/-- Logic of comparator_7485: a = i[0]*2+i[1], b = i[2]*2+i[3],
result [a greater b, a equal b, a less b]. -/
def comparator_7485_logic (i : List JSVal) : List JSVal :=
  let a := jsAdd (jsMul (idx i 0) (.num 2)) (idx i 1)
  let b := jsAdd (jsMul (idx i 2) (.num 2)) (idx i 3)
  [.boolean (jsGt a b), .boolean (jsStrictEq a b), .boolean (jsLt a b)]

/-- Logic of d_ff_7474: clear wins, then preset, else Q tracks D. -/
def d_ff_7474_logic (i : List JSVal) : List JSVal :=
  if toBool (jsNot (idx i 3)) then [.num 0, .num 1]
  else if toBool (jsNot (idx i 2)) then [.num 1, .num 0]
  else [idx i 0, jsNot (idx i 0)]

/-- Logic of jk_ff_7476: set, reset, toggle-shown-high, else low. -/
def jk_ff_7476_logic (i : List JSVal) : List JSVal :=
  let j := idx i 0
  let k := idx i 1
  if toBool j && !toBool k then [.num 1, .num 0]
  else if !toBool j && toBool k then [.num 0, .num 1]
  else if toBool j && toBool k then [.num 1, .num 1]
  else [.num 0, .num 1]

/-- Logic of counter_mod4: static display [i[0], !i[0]]. -/
def counter_mod4_logic (i : List JSVal) : List JSVal :=
  [idx i 0, jsNot (idx i 0)]

/-- A chip entry of a recipe: id, type string and grid x offset. -/
structure Chip where
  id : String
  type : String
  x : Int
deriving DecidableEq

/-- A symbolic wire endpoint: the tokens VCC and GND, a switch token SW_i or
an LED token LED_i (carried here by their parsed index), or a chip pin pair
with fields c and p. -/
inductive Endpoint where
  | vcc
  | gnd
  | sw (i : Int)
  | led (i : Int)
  | pinRef (c : Int) (p : Int)
deriving DecidableEq

/-- A wire of a recipe: source endpoint s, end endpoint e, and colour key. -/
structure WireSpec where
  s : Endpoint
  e : Endpoint
  color : String
deriving DecidableEq

/-- One circuit description of the catalog.  The display-only explanation
text is omitted.  The logic field returns in Except so that a thrown JS
exception can be modelled; every catalog logic function is pure and total,
so the catalog wraps its result in Except.ok. -/
structure Circuit where
  title : String
  desc : String
  bom : List String
  chips : List Chip
  inputLabels : List String
  outputLabels : List String
  wires : List WireSpec
  logic : Option (List JSVal → Except Unit (List JSVal))

/-- Argument of powerWires: a pin count number or the special 7476 string. -/
inductive PowerPins where
  | n (k : Int)
  | str (s : String)
deriving DecidableEq

/-- VCC and GND hookup wires for a chip, by package kind. -/
def powerWires (chipIdx : Int) (pins : PowerPins) : List WireSpec :=
  if pins = .n 14 then
    [⟨.vcc, .pinRef chipIdx 14, "WIRE_RED"⟩, ⟨.gnd, .pinRef chipIdx 7, "WIRE_BLACK"⟩]
  else if pins = .n 16 then
    [⟨.vcc, .pinRef chipIdx 16, "WIRE_RED"⟩, ⟨.gnd, .pinRef chipIdx 8, "WIRE_BLACK"⟩]
  else if pins = .str "7476" then
    [⟨.vcc, .pinRef chipIdx 5, "WIRE_RED"⟩, ⟨.gnd, .pinRef chipIdx 13, "WIRE_BLACK"⟩]
  else []

/-- Recipe basic_gates. -/
def basic_gates : Circuit where
  title := "Basic Logic Gates"
  desc := "Verify Truth Tables for AND, OR, NOT, NAND, NOR, XOR."
  bom := ["1x 7408 (AND)", "1x 7432 (OR)", "Switches & LEDs"]
  chips := [⟨"u1", "7408", 20⟩, ⟨"u2", "7432", 35⟩]
  inputLabels := ["A", "B"]
  outputLabels := ["AND", "OR"]
  wires :=
    powerWires 0 (.n 14) ++ powerWires 1 (.n 14) ++
    [⟨.sw 0, .pinRef 0 1, "WIRE_BLUE"⟩, ⟨.sw 1, .pinRef 0 2, "WIRE_ORANGE"⟩,
     ⟨.pinRef 0 3, .led 0, "WIRE_GREEN"⟩,
     ⟨.sw 0, .pinRef 1 1, "WIRE_BLUE"⟩, ⟨.sw 1, .pinRef 1 2, "WIRE_ORANGE"⟩,
     ⟨.pinRef 1 3, .led 1, "WIRE_GREEN"⟩]
  logic := some (fun i => Except.ok (basic_gates_logic i))

/-- Recipe not_using_nand. -/
def not_using_nand : Circuit where
  title := "NOT using NAND"
  desc := "Universal Gate: Inverter created by tying NAND inputs together."
  bom := ["1x 7400 (NAND)"]
  chips := [⟨"u1", "7400", 25⟩]
  inputLabels := ["A"]
  outputLabels := ["Y"]
  wires :=
    powerWires 0 (.n 14) ++
    [⟨.sw 0, .pinRef 0 1, "WIRE_BLUE"⟩, ⟨.sw 0, .pinRef 0 2, "WIRE_BLUE"⟩,
     ⟨.pinRef 0 3, .led 0, "WIRE_GREEN"⟩]
  logic := some (fun i => Except.ok (not_using_nand_logic i))

/-- Recipe and_using_nand. -/
def and_using_nand : Circuit where
  title := "AND using NAND"
  desc := "Universal Gate: NAND followed by NOT (NAND as inverter)."
  bom := ["1x 7400 (NAND)"]
  chips := [⟨"u1", "7400", 25⟩]
  inputLabels := ["A", "B"]
  outputLabels := ["Y"]
  wires :=
    powerWires 0 (.n 14) ++
    [⟨.sw 0, .pinRef 0 1, "WIRE_BLUE"⟩, ⟨.sw 1, .pinRef 0 2, "WIRE_ORANGE"⟩,
     ⟨.pinRef 0 3, .pinRef 0 4, "WIRE_PURPLE"⟩, ⟨.pinRef 0 3, .pinRef 0 5, "WIRE_PURPLE"⟩,
     ⟨.pinRef 0 6, .led 0, "WIRE_GREEN"⟩]
  logic := some (fun i => Except.ok (and_using_nand_logic i))

/-- Recipe or_using_nand. -/
def or_using_nand : Circuit where
  title := "OR using NAND"
  desc := "Universal Gate: Invert A, Invert B, then NAND them."
  bom := ["1x 7400 (NAND)"]
  chips := [⟨"u1", "7400", 25⟩]
  inputLabels := ["A", "B"]
  outputLabels := ["Y"]
  wires :=
    powerWires 0 (.n 14) ++
    [⟨.sw 0, .pinRef 0 1, "WIRE_BLUE"⟩, ⟨.sw 0, .pinRef 0 2, "WIRE_BLUE"⟩,
     ⟨.sw 1, .pinRef 0 4, "WIRE_ORANGE"⟩, ⟨.sw 1, .pinRef 0 5, "WIRE_ORANGE"⟩,
     ⟨.pinRef 0 3, .pinRef 0 9, "WIRE_PURPLE"⟩, ⟨.pinRef 0 6, .pinRef 0 10, "WIRE_PURPLE"⟩,
     ⟨.pinRef 0 8, .led 0, "WIRE_GREEN"⟩]
  logic := some (fun i => Except.ok (or_using_nand_logic i))

/-- Recipe not_using_nor. -/
def not_using_nor : Circuit where
  title := "NOT using NOR"
  desc := "Universal Gate: Inverter created by tying NOR inputs together."
  bom := ["1x 7402 (NOR)"]
  chips := [⟨"u1", "7402", 25⟩]
  inputLabels := ["A"]
  outputLabels := ["Y"]
  wires :=
    powerWires 0 (.n 14) ++
    [⟨.sw 0, .pinRef 0 2, "WIRE_BLUE"⟩, ⟨.sw 0, .pinRef 0 3, "WIRE_BLUE"⟩,
     ⟨.pinRef 0 1, .led 0, "WIRE_GREEN"⟩]
  logic := some (fun i => Except.ok (not_using_nor_logic i))

/-- Recipe or_using_nor. -/
def or_using_nor : Circuit where
  title := "OR using NOR"
  desc := "Universal Gate: NOR followed by NOT (NOR as inverter)."
  bom := ["1x 7402 (NOR)"]
  chips := [⟨"u1", "7402", 25⟩]
  inputLabels := ["A", "B"]
  outputLabels := ["Y"]
  wires :=
    powerWires 0 (.n 14) ++
    [⟨.sw 0, .pinRef 0 2, "WIRE_BLUE"⟩, ⟨.sw 1, .pinRef 0 3, "WIRE_ORANGE"⟩,
     ⟨.pinRef 0 1, .pinRef 0 5, "WIRE_PURPLE"⟩, ⟨.pinRef 0 1, .pinRef 0 6, "WIRE_PURPLE"⟩,
     ⟨.pinRef 0 4, .led 0, "WIRE_GREEN"⟩]
  logic := some (fun i => Except.ok (or_using_nor_logic i))

/-- Recipe and_using_nor. -/
def and_using_nor : Circuit where
  title := "AND using NOR"
  desc := "Universal Gate: Invert A, Invert B, then NOR them."
  bom := ["1x 7402 (NOR)"]
  chips := [⟨"u1", "7402", 25⟩]
  inputLabels := ["A", "B"]
  outputLabels := ["Y"]
  wires :=
    powerWires 0 (.n 14) ++
    [⟨.sw 0, .pinRef 0 2, "WIRE_BLUE"⟩, ⟨.sw 0, .pinRef 0 3, "WIRE_BLUE"⟩,
     ⟨.sw 1, .pinRef 0 5, "WIRE_ORANGE"⟩, ⟨.sw 1, .pinRef 0 6, "WIRE_ORANGE"⟩,
     ⟨.pinRef 0 1, .pinRef 0 8, "WIRE_PURPLE"⟩, ⟨.pinRef 0 4, .pinRef 0 9, "WIRE_PURPLE"⟩,
     ⟨.pinRef 0 10, .led 0, "WIRE_GREEN"⟩]
  logic := some (fun i => Except.ok (and_using_nor_logic i))

/-- Recipe half_adder. -/
def half_adder : Circuit where
  title := "Half Adder"
  desc := "Adds 2 bits. Sum = A^B, Carry = A.B"
  bom := ["1x 7486 (XOR)", "1x 7408 (AND)"]
  chips := [⟨"u1", "7486", 20⟩, ⟨"u2", "7408", 35⟩]
  inputLabels := ["A", "B"]
  outputLabels := ["Sum", "Cout"]
  wires :=
    powerWires 0 (.n 14) ++ powerWires 1 (.n 14) ++
    [⟨.sw 0, .pinRef 0 1, "WIRE_BLUE"⟩, ⟨.sw 1, .pinRef 0 2, "WIRE_ORANGE"⟩,
     ⟨.pinRef 0 3, .led 0, "WIRE_GREEN"⟩,
     ⟨.sw 0, .pinRef 1 1, "WIRE_BLUE"⟩, ⟨.sw 1, .pinRef 1 2, "WIRE_ORANGE"⟩,
     ⟨.pinRef 1 3, .led 1, "WIRE_YELLOW"⟩]
  logic := some (fun i => Except.ok (half_adder_logic i))

/-- Recipe full_adder. -/
def full_adder : Circuit where
  title := "Full Adder"
  desc := "Adds A, B, Cin."
  bom := ["1x 7486, 1x 7408, 1x 7432"]
  chips := [⟨"u1", "7486", 15⟩, ⟨"u2", "7408", 28⟩, ⟨"u3", "7432", 41⟩]
  inputLabels := ["A", "B", "Cin"]
  outputLabels := ["Sum", "Cout"]
  wires :=
    powerWires 0 (.n 14) ++ powerWires 1 (.n 14) ++ powerWires 2 (.n 14) ++
    [⟨.sw 0, .pinRef 0 1, "WIRE_BLUE"⟩, ⟨.sw 1, .pinRef 0 2, "WIRE_ORANGE"⟩,
     ⟨.pinRef 0 3, .pinRef 0 4, "WIRE_PURPLE"⟩, ⟨.sw 2, .pinRef 0 5, "WIRE_YELLOW"⟩,
     ⟨.pinRef 0 6, .led 0, "WIRE_GREEN"⟩,
     ⟨.sw 0, .pinRef 1 1, "WIRE_BLUE"⟩, ⟨.sw 1, .pinRef 1 2, "WIRE_ORANGE"⟩,
     ⟨.pinRef 0 3, .pinRef 1 4, "WIRE_PURPLE"⟩, ⟨.sw 2, .pinRef 1 5, "WIRE_YELLOW"⟩,
     ⟨.pinRef 1 3, .pinRef 2 1, "WIRE_PURPLE"⟩, ⟨.pinRef 1 6, .pinRef 2 2, "WIRE_PURPLE"⟩,
     ⟨.pinRef 2 3, .led 1, "WIRE_RED"⟩]
  logic := some (fun i => Except.ok (full_adder_logic i))

/-- Recipe half_subtractor. -/
def half_subtractor : Circuit where
  title := "Half Subtractor"
  desc := "Diff = A^B, Borrow = (!A).B"
  bom := ["1x 7486, 1x 7404, 1x 7408"]
  chips := [⟨"u1", "7486", 15⟩, ⟨"u2", "7404", 28⟩, ⟨"u3", "7408", 41⟩]
  inputLabels := ["A", "B"]
  outputLabels := ["Diff", "Borr"]
  wires :=
    powerWires 0 (.n 14) ++ powerWires 1 (.n 14) ++ powerWires 2 (.n 14) ++
    [⟨.sw 0, .pinRef 0 1, "WIRE_BLUE"⟩, ⟨.sw 1, .pinRef 0 2, "WIRE_ORANGE"⟩,
     ⟨.pinRef 0 3, .led 0, "WIRE_GREEN"⟩,
     ⟨.sw 0, .pinRef 1 1, "WIRE_BLUE"⟩, ⟨.pinRef 1 2, .pinRef 2 1, "WIRE_PURPLE"⟩,
     ⟨.sw 1, .pinRef 2 2, "WIRE_ORANGE"⟩, ⟨.pinRef 2 3, .led 1, "WIRE_RED"⟩]
  logic := some (fun i => Except.ok (half_subtractor_logic i))

/-- Recipe full_subtractor. -/
def full_subtractor : Circuit where
  title := "Full Subtractor"
  desc := "Subtracts A - B - Bin. Outputs Diff & Bout."
  bom := ["1x 7486 (XOR)", "1x 7408 (AND)", "1x 7404 (NOT)", "1x 7432 (OR)"]
  chips := [⟨"u1", "7486", 10⟩, ⟨"u2", "7408", 22⟩, ⟨"u3", "7404", 34⟩, ⟨"u4", "7432", 46⟩]
  inputLabels := ["A", "B", "Bin"]
  outputLabels := ["Diff", "Bout"]
  wires :=
    powerWires 0 (.n 14) ++ powerWires 1 (.n 14) ++ powerWires 2 (.n 14) ++ powerWires 3 (.n 14) ++
    [⟨.sw 0, .pinRef 0 1, "WIRE_BLUE"⟩, ⟨.sw 1, .pinRef 0 2, "WIRE_ORANGE"⟩,
     ⟨.pinRef 0 3, .pinRef 0 4, "WIRE_PURPLE"⟩, ⟨.sw 2, .pinRef 0 5, "WIRE_GREEN"⟩,
     ⟨.pinRef 0 6, .led 0, "WIRE_GREEN"⟩,
     ⟨.pinRef 2 2, .pinRef 1 1, "WIRE_YELLOW"⟩,
     ⟨.pinRef 1 3, .pinRef 3 1, "WIRE_YELLOW"⟩,
     ⟨.pinRef 3 3, .led 1, "WIRE_RED"⟩]
  logic := some (fun i => Except.ok (full_subtractor_logic i))

/-- Recipe multiplier_2bit. -/
def multiplier_2bit : Circuit where
  title := "2-Bit Multiplier"
  desc := "Multiplies two 2-bit numbers (A1A0 * B1B0)."
  bom := ["2x 7408 (AND)", "1x 7486 (XOR)", "4x LEDs"]
  chips := [⟨"u1", "7408", 15⟩, ⟨"u2", "7486", 28⟩, ⟨"u3", "7408", 41⟩]
  inputLabels := ["A0", "A1", "B0", "B1"]
  outputLabels := ["P0", "P1", "P2", "P3"]
  wires :=
    powerWires 0 (.n 14) ++ powerWires 1 (.n 14) ++ powerWires 2 (.n 14) ++
    [⟨.sw 0, .pinRef 0 1, "WIRE_BLUE"⟩, ⟨.sw 2, .pinRef 0 2, "WIRE_ORANGE"⟩,
     ⟨.pinRef 0 3, .led 0, "WIRE_GREEN"⟩,
     ⟨.sw 1, .pinRef 0 4, "WIRE_PURPLE"⟩, ⟨.sw 2, .pinRef 0 5, "WIRE_ORANGE"⟩,
     ⟨.sw 0, .pinRef 0 9, "WIRE_BLUE"⟩, ⟨.sw 3, .pinRef 0 10, "WIRE_YELLOW"⟩,
     ⟨.pinRef 0 6, .pinRef 1 1, "WIRE_PURPLE"⟩, ⟨.pinRef 0 8, .pinRef 1 2, "WIRE_PURPLE"⟩,
     ⟨.pinRef 1 3, .led 1, "WIRE_GREEN"⟩,
     ⟨.pinRef 2 6, .led 3, "WIRE_RED"⟩]
  logic := some (fun i => Except.ok (multiplier_2bit_logic i))

/-- Recipe binary_gray. -/
def binary_gray : Circuit where
  title := "Binary to Gray Code"
  desc := "4-bit Binary to Gray using XOR (7486)."
  bom := ["1x 7486 (XOR)"]
  chips := [⟨"u1", "7486", 25⟩]
  inputLabels := ["B3", "B2", "B1", "B0"]
  outputLabels := ["G3", "G2", "G1", "G0"]
  wires :=
    powerWires 0 (.n 14) ++
    [⟨.sw 0, .led 0, "WIRE_BLUE"⟩,
     ⟨.sw 0, .pinRef 0 1, "WIRE_BLUE"⟩, ⟨.sw 1, .pinRef 0 2, "WIRE_ORANGE"⟩,
     ⟨.pinRef 0 3, .led 1, "WIRE_GREEN"⟩,
     ⟨.sw 1, .pinRef 0 4, "WIRE_ORANGE"⟩, ⟨.sw 2, .pinRef 0 5, "WIRE_YELLOW"⟩,
     ⟨.pinRef 0 6, .led 2, "WIRE_GREEN"⟩,
     ⟨.sw 2, .pinRef 0 9, "WIRE_YELLOW"⟩, ⟨.sw 3, .pinRef 0 10, "WIRE_PURPLE"⟩,
     ⟨.pinRef 0 8, .led 3, "WIRE_GREEN"⟩]
  logic := some (fun i => Except.ok (binary_gray_logic i))

/-- Recipe mux_74153. -/
def mux_74153 : Circuit where
  title := "4:1 Multiplexer (74153)"
  desc := "Dual 4-Input Mux. Selected by A, B."
  bom := ["1x 74153 (Dual 4:1 Mux)"]
  chips := [⟨"u1", "74153", 25⟩]
  inputLabels := ["A", "B", "1C0", "1C1", "1C2", "1C3"]
  outputLabels := ["1Y"]
  wires :=
    powerWires 0 (.n 16) ++
    [⟨.gnd, .pinRef 0 1, "WIRE_BLACK"⟩,
     ⟨.sw 0, .pinRef 0 14, "WIRE_BLUE"⟩,
     ⟨.sw 1, .pinRef 0 2, "WIRE_ORANGE"⟩,
     ⟨.sw 2, .pinRef 0 6, "WIRE_GREEN"⟩,
     ⟨.sw 3, .pinRef 0 5, "WIRE_GREEN"⟩,
     ⟨.sw 4, .pinRef 0 4, "WIRE_GREEN"⟩,
     ⟨.sw 5, .pinRef 0 3, "WIRE_GREEN"⟩,
     ⟨.pinRef 0 7, .led 0, "WIRE_RED"⟩]
  logic := some (fun i => Except.ok (mux_74153_logic i))

/-- Recipe decoder_74139. -/
def decoder_74139 : Circuit where
  title := "2-to-4 Decoder (74139)"
  desc := "Dual 2-to-4 Line Decoder (Active Low Outputs)."
  bom := ["1x 74139 (Dual Decoder)"]
  chips := [⟨"u1", "74139", 25⟩]
  inputLabels := ["A", "B", "En"]
  outputLabels := ["Y0", "Y1", "Y2", "Y3"]
  wires :=
    powerWires 0 (.n 16) ++
    [⟨.sw 2, .pinRef 0 1, "WIRE_BLACK"⟩,
     ⟨.sw 0, .pinRef 0 2, "WIRE_BLUE"⟩,
     ⟨.sw 1, .pinRef 0 3, "WIRE_ORANGE"⟩,
     ⟨.pinRef 0 4, .led 0, "WIRE_RED"⟩,
     ⟨.pinRef 0 5, .led 1, "WIRE_RED"⟩,
     ⟨.pinRef 0 6, .led 2, "WIRE_RED"⟩,
     ⟨.pinRef 0 7, .led 3, "WIRE_RED"⟩]
  logic := some (fun i => Except.ok (decoder_74139_logic i))

/-- Recipe comparator_7485. -/
def comparator_7485 : Circuit where
  title := "4-Bit Magnitude Comparator"
  desc := "Compares Word A (A3..A0) and B (B3..B0)."
  bom := ["1x 7485 (4-bit Comparator)"]
  chips := [⟨"u1", "7485", 25⟩]
  inputLabels := ["A1", "A0", "B1", "B0"]
  outputLabels := ["A>B", "A=B", "A<B"]
  wires :=
    powerWires 0 (.n 16) ++
    [⟨.gnd, .pinRef 0 15, "WIRE_BLACK"⟩, ⟨.gnd, .pinRef 0 13, "WIRE_BLACK"⟩,
     ⟨.gnd, .pinRef 0 1, "WIRE_BLACK"⟩, ⟨.gnd, .pinRef 0 14, "WIRE_BLACK"⟩,
     ⟨.vcc, .pinRef 0 3, "WIRE_RED"⟩,
     ⟨.gnd, .pinRef 0 2, "WIRE_BLACK"⟩, ⟨.gnd, .pinRef 0 4, "WIRE_BLACK"⟩,
     ⟨.sw 0, .pinRef 0 12, "WIRE_BLUE"⟩, ⟨.sw 1, .pinRef 0 10, "WIRE_BLUE"⟩,
     ⟨.sw 2, .pinRef 0 11, "WIRE_ORANGE"⟩, ⟨.sw 3, .pinRef 0 9, "WIRE_ORANGE"⟩,
     ⟨.pinRef 0 5, .led 0, "WIRE_GREEN"⟩,
     ⟨.pinRef 0 6, .led 1, "WIRE_YELLOW"⟩,
     ⟨.pinRef 0 7, .led 2, "WIRE_RED"⟩]
  logic := some (fun i => Except.ok (comparator_7485_logic i))

/-- Recipe d_ff_7474. -/
def d_ff_7474 : Circuit where
  title := "D Flip-Flop (7474)"
  desc := "Rising Edge Triggered. 1:/CLR, 2:D, 3:CLK, 4:/PRE"
  bom := ["1x 7474 (Dual D-FF)"]
  chips := [⟨"u1", "7474", 25⟩]
  inputLabels := ["D", "CLK", "PRE", "CLR"]
  outputLabels := ["Q", "/Q"]
  wires :=
    powerWires 0 (.n 14) ++
    [⟨.sw 2, .pinRef 0 4, "WIRE_RED"⟩,
     ⟨.sw 3, .pinRef 0 1, "WIRE_RED"⟩,
     ⟨.sw 0, .pinRef 0 2, "WIRE_BLUE"⟩,
     ⟨.sw 1, .pinRef 0 3, "WIRE_YELLOW"⟩,
     ⟨.pinRef 0 5, .led 0, "WIRE_GREEN"⟩,
     ⟨.pinRef 0 6, .led 1, "WIRE_ORANGE"⟩]
  logic := some (fun i => Except.ok (d_ff_7474_logic i))

/-- Recipe jk_ff_7476. -/
def jk_ff_7476 : Circuit where
  title := "JK Flip-Flop (7476)"
  desc := "Dual JK FF. Pin 5=VCC, 13=GND. 1K=16, 1J=4."
  bom := ["1x 7476 (Dual JK)"]
  chips := [⟨"u1", "7476", 25⟩]
  inputLabels := ["J", "K", "CLK"]
  outputLabels := ["Q", "/Q"]
  wires :=
    powerWires 0 (.str "7476") ++
    [⟨.sw 0, .pinRef 0 4, "WIRE_BLUE"⟩,
     ⟨.sw 1, .pinRef 0 16, "WIRE_ORANGE"⟩,
     ⟨.sw 2, .pinRef 0 1, "WIRE_YELLOW"⟩,
     ⟨.vcc, .pinRef 0 2, "WIRE_RED"⟩,
     ⟨.vcc, .pinRef 0 3, "WIRE_RED"⟩,
     ⟨.pinRef 0 15, .led 0, "WIRE_GREEN"⟩,
     ⟨.pinRef 0 14, .led 1, "WIRE_RED"⟩]
  logic := some (fun i => Except.ok (jk_ff_7476_logic i))

/-- Recipe counter_mod4. -/
def counter_mod4 : Circuit where
  title := "Mod-4 Asynchronous Counter"
  desc := "2-bit Up Counter using JK FFs (7476). J=K=1 (Toggle)."
  bom := ["1x 7476 (Dual JK)"]
  chips := [⟨"u1", "7476", 25⟩]
  inputLabels := ["CLK"]
  outputLabels := ["Q0", "Q1"]
  wires :=
    powerWires 0 (.str "7476") ++
    [⟨.vcc, .pinRef 0 4, "WIRE_RED"⟩, ⟨.vcc, .pinRef 0 16, "WIRE_RED"⟩,
     ⟨.vcc, .pinRef 0 9, "WIRE_RED"⟩, ⟨.vcc, .pinRef 0 12, "WIRE_RED"⟩,
     ⟨.vcc, .pinRef 0 2, "WIRE_RED"⟩, ⟨.vcc, .pinRef 0 3, "WIRE_RED"⟩,
     ⟨.vcc, .pinRef 0 7, "WIRE_RED"⟩, ⟨.vcc, .pinRef 0 8, "WIRE_RED"⟩,
     ⟨.sw 0, .pinRef 0 1, "WIRE_YELLOW"⟩,
     ⟨.pinRef 0 15, .pinRef 0 6, "WIRE_PURPLE"⟩,
     ⟨.pinRef 0 15, .led 0, "WIRE_GREEN"⟩,
     ⟨.pinRef 0 11, .led 1, "WIRE_GREEN"⟩]
  logic := some (fun i => Except.ok (counter_mod4_logic i))

/-- The fixed recipe catalog, as an ordered key-to-circuit table. -/
def RECIPES : List (String × Circuit) :=
  [("basic_gates", basic_gates),
   ("not_using_nand", not_using_nand),
   ("and_using_nand", and_using_nand),
   ("or_using_nand", or_using_nand),
   ("not_using_nor", not_using_nor),
   ("or_using_nor", or_using_nor),
   ("and_using_nor", and_using_nor),
   ("half_adder", half_adder),
   ("full_adder", full_adder),
   ("half_subtractor", half_subtractor),
   ("full_subtractor", full_subtractor),
   ("multiplier_2bit", multiplier_2bit),
   ("binary_gray", binary_gray),
   ("mux_74153", mux_74153),
   ("decoder_74139", decoder_74139),
   ("comparator_7485", comparator_7485),
   ("d_ff_7474", d_ff_7474),
   ("jk_ff_7476", jk_ff_7476),
   ("counter_mod4", counter_mod4)]

/-- The default output produced by the evaluator when the logic is absent or
throws: [0,0,0,0] regardless of the declared output arity. -/
def zero4 : List JSVal := [.num 0, .num 0, .num 0, .num 0]

/-- The evaluator: try to return logic(inputs) when the logic is present,
and substitute the all-zero default when it is absent or throws. -/
def evaluate (c : Circuit) (inputs : List JSVal) : List JSVal :=
  match c.logic with
  | none => zero4
  | some f =>
      match f inputs with
      | .ok out => out
      | .error _ => zero4

/-- Grid cell size in pixels. -/
def CELL : Rat := 15

/-- Horizontal board offset in pixels. -/
def OFF_X : Rat := 140

/-- Vertical board offset in pixels. -/
def OFF_Y : Rat := 30

/-- A 2-D board coordinate in pixels. -/
structure Coord where
  x : Rat
  y : Rat
deriving DecidableEq

/-- Cast an integer to a rational coordinate component. -/
def iq (n : Int) : Rat := n

/-- JS array read with a possibly negative numeric index: negative and
out-of-range indices read undefined, which makes the chip lookup fail. -/
def listGetInt (l : List Chip) (i : Int) : Option Chip :=
  if i < 0 then none else l.get? i.toNat

/-- The index of the last pin of the bottom row: 8 for the 16-pin packages
7476, 74153, 74139 and 7485, otherwise 7 (variable maxBottom in getCoords). -/
def maxBottom (t : String) : Int :=
  if t = "7476" ∨ t = "74153" ∨ t = "74139" ∨ t = "7485" then 8 else 7

/-- The first argument of getCoords, a type tag plus the fields getCoords
reads from its val argument: the parsed index of a SW_i or LED_i token, or
the c and p fields of a pin pair. -/
inductive CoordKey where
  | railVcc
  | railGnd
  | sw (i : Int)
  | led (i : Int)
  | pin (c : Int) (p : Int)
deriving DecidableEq

/-- Resolve a symbolic endpoint to a board coordinate.  The pin branch looks
the chip up by index; reading the x field of a missing chip throws, the
surrounding try/catch returns the default coordinate (0, 0).  A pin number 0
(or an absent p field) falls back to 1 via val.p || 1; pin numbers up to
maxBottom go on the bottom row with offset pin - 1, larger pin numbers go on
the top row with offset maxTop - pin (reverse order), with no range check. -/
def getCoords (k : CoordKey) (chips : List Chip) : Coord :=
  match k with
  | .railVcc => ⟨OFF_X + 10, OFF_Y + CELL * (3/2)⟩
  | .railGnd => ⟨OFF_X + 10, OFF_Y + CELL * (35/2)⟩
  | .sw i => ⟨OFF_X + (20 + iq i * 2) * CELL, OFF_Y + 16 * CELL⟩
  | .led i => ⟨OFF_X + 55 * CELL, OFF_Y + (4 + iq i * 3) * CELL⟩
  | .pin c p =>
      match listGetInt chips c with
      | none => ⟨0, 0⟩
      | some chip =>
          let pin : Int := if p = 0 then 1 else p
          let chipX : Rat := OFF_X + iq chip.x * CELL
          let chipY : Rat := OFF_Y + 6 * CELL
          let mb : Int := maxBottom chip.type
          let mt : Int := mb * 2
          if pin ≤ mb then ⟨chipX + iq (pin - 1) * CELL + 5, chipY + (9/2) * CELL⟩
          else ⟨chipX + iq (mt - pin) * CELL + 5, chipY - (1/2) * CELL⟩

/-- Truncation of a rational toward zero, as JS does for the % operator. -/
def ratTrunc (q : Rat) : Int := q.num / (q.den : Int)

/-- JS remainder a % b for the finite operands used here (b is the literal 5
in the source; the NaN result of a zero divisor is not modelled). -/
def jsMod (a b : Rat) : Rat := a - b * iq (ratTrunc (a / b))

/-- The four points of the routed wire path (the M and three L commands of
the d attribute). -/
structure Path where
  a : Coord
  b : Coord
  c : Coord
  d : Coord
deriving DecidableEq

/-- The path built by the Wire component: down to the jittered middle height,
across, and down to the destination. -/
def mkPath (p1 p2 : Coord) : Path :=
  let midY : Rat := (p1.y + p2.y) / 2
  let jitter : Rat := jsMod p1.x 5
  ⟨p1, ⟨p1.x, midY + jitter⟩, ⟨p2.x, midY + jitter⟩, p2⟩

/-- A path is a 3-segment orthogonal route: vertical, horizontal, vertical. -/
def orthogonal3 (p : Path) : Prop :=
  p.a.x = p.b.x ∧ p.b.y = p.c.y ∧ p.c.x = p.d.x

/-- The Wire component: renders nothing when an endpoint is missing or has a
falsy (zero) x component, otherwise the 3-segment path. -/
def Wire (p1 p2 : Option Coord) : Option Path :=
  match p1, p2 with
  | some q1, some q2 => if q1.x = 0 ∨ q2.x = 0 then none else some (mkPath q1 q2)
  | _, _ => none

/-- Endpoint dispatch for a wire source, as in the render loop: the VCC and
GND tokens and SW_i tokens are resolved directly; any other value, including
an LED_i token (a string not containing SW), falls through to the PIN branch
where the missing c and p fields read as chip 0, pin 1. -/
def resolveS (chips : List Chip) : Endpoint → Coord
  | .vcc => getCoords CoordKey.railVcc chips
  | .gnd => getCoords CoordKey.railGnd chips
  | .sw i => getCoords (CoordKey.sw i) chips
  | .led _ => getCoords (CoordKey.pin 0 1) chips
  | .pinRef c p => getCoords (CoordKey.pin c p) chips

/-- Endpoint dispatch for a wire destination: an LED_i token resolves to the
LED column; any other string (VCC, GND, SW_i) falls through to the PIN branch
where the missing c and p fields read as chip 0, pin 1. -/
def resolveE (chips : List Chip) : Endpoint → Coord
  | .led i => getCoords (CoordKey.led i) chips
  | .pinRef c p => getCoords (CoordKey.pin c p) chips
  | _ => getCoords (CoordKey.pin 0 1) chips

/-- Rendering of one wire of a circuit: resolve both endpoints and hand the
coordinates to the Wire component. -/
def renderWire (chips : List Chip) (w : WireSpec) : Option Path :=
  Wire (some (resolveS chips w.s)) (some (resolveE chips w.e))

/-- The rendered wire set of a wire list: the paths of the wires the Wire
component does not suppress. -/
def renderedWires (chips : List Chip) (ws : List WireSpec) : List Path :=
  ws.filterMap (renderWire chips)

/-- A bit input as the application state supplies it: the number 0 or 1. -/
def bit (b : Bool) : JSVal := .num (if b then 1 else 0)

/-- An input entry as the claims range over them: a bit (the number 0 or 1)
or undefined (a read past the end of a short input array). -/
abbrev bitOrUndefined (v : JSVal) : Prop :=
  v = JSVal.num 0 ∨ v = JSVal.num 1 ∨ v = JSVal.undefined

/-- An input vector of bits, possibly with undefined entries. -/
abbrev bitsOrUndefined (l : List JSVal) : Prop := ∀ v ∈ l, bitOrUndefined v

/-- C1: evaluate reproduces the documented truth-table vectors of the half
adder and full adder: half_adder maps (1,1) to (Sum=0, Cout=1) and (1,0) to
(1,0); full_adder maps (1,1,1) to (Sum=1, Cout=1) and (1,0,0) to (1,0). -/
theorem adder_truth_vectors :
    evaluate half_adder [JSVal.num 1, JSVal.num 1] = [JSVal.num 0, JSVal.num 1] ∧
    evaluate half_adder [JSVal.num 1, JSVal.num 0] = [JSVal.num 1, JSVal.num 0] ∧
    evaluate full_adder [JSVal.num 1, JSVal.num 1, JSVal.num 1] = [JSVal.num 1, JSVal.num 1] ∧
    evaluate full_adder [JSVal.num 1, JSVal.num 0, JSVal.num 0] = [JSVal.num 1, JSVal.num 0] := by
  decide

/-- C2: with both select inputs high (A=1, B=1, so sel=3), the mux_74153
recipe returns exactly the 1C3 data input, for every assignment of the four
data input lines. -/
theorem mux74153_sel3_selects_c3 :
    ∀ d0 d1 d2 d3 : Bool,
      evaluate mux_74153 [JSVal.num 1, JSVal.num 1, bit d0, bit d1, bit d2, bit d3] =
        [bit d3] := by
  decide

/-- C9: with neither preset nor clear asserted (PRE=1 and CLR=1, active low),
the d_ff_7474 recipe returns Q equal to D and /Q equal to the logical NOT of
D, for every D and every CLK value (the clock input is ignored). -/
theorem dff7474_tracks_d :
    ∀ d clk : Int,
      evaluate d_ff_7474 [JSVal.num d, JSVal.num clk, JSVal.num 1, JSVal.num 1] =
        [JSVal.num d, jsNot (JSVal.num d)] ∧
      toBool (jsNot (JSVal.num d)) = !toBool (JSVal.num d) :=
  fun _ _ => ⟨rfl, rfl⟩

/-- C8: evaluate is deterministic and stateless: two calls on equal
(circuit, inputs) pairs, for any circuit of the catalog, give identical
output vectors. -/
theorem evaluate_deterministic :
    ∀ p ∈ RECIPES, ∀ ca cb : Circuit, ∀ ia ib : List JSVal,
      ca = p.2 → cb = p.2 → ia = ib → evaluate ca ia = evaluate cb ib := by
  intro p _ ca cb ia ib h1 h2 h3
  subst h1
  subst h2
  subst h3
  rfl

/-- Witness for C8 at the basic_gates recipe and a concrete input. -/
theorem evaluate_deterministic_witness :
    evaluate basic_gates [JSVal.num 1, JSVal.num 0] =
      evaluate basic_gates [JSVal.num 1, JSVal.num 0] :=
  evaluate_deterministic ("basic_gates", basic_gates) (List.mem_cons_self _ _)
    basic_gates basic_gates _ _ rfl rfl rfl

/-- A circuit whose logic function throws on every input, for exercising the
catch branch of the evaluator. -/
def failing_circuit : Circuit where
  title := "bad"
  desc := ""
  bom := []
  chips := []
  inputLabels := []
  outputLabels := []
  wires := []
  logic := some (fun _ => Except.error ())

/-- C4: evaluate never propagates a failure: when the logic field is absent,
or the logic function throws on the given input, evaluate returns the
all-zero default output vector. -/
theorem evaluate_catches_failures (c : Circuit) (inputs : List JSVal)
    (h : c.logic = none ∨ ∃ f, c.logic = some f ∧ f inputs = Except.error ()) :
    evaluate c inputs = zero4 := by
  rcases h with h | ⟨f, hf, he⟩
  · simp [evaluate, h]
  · simp [evaluate, hf, he]

/-- Witness for C4 at a circuit whose logic always throws. -/
theorem evaluate_catches_failures_witness :
    evaluate failing_circuit [] = zero4 :=
  evaluate_catches_failures failing_circuit [] (Or.inr ⟨_, rfl, rfl⟩)

/-- C10: every catalog recipe carries a total, never-throwing logic function:
its logic field wraps a plain function g in Except.ok, and on every input
vector of bits (of any length, including short vectors whose missing entries
read as undefined), evaluate returns g of the input, so the exception branch
of the evaluator is unreachable for catalog circuits. -/
theorem catalog_logic_total :
    ∀ p ∈ RECIPES, ∃ g : List JSVal → List JSVal,
      p.2.logic = some (fun i => Except.ok (g i)) ∧
      ∀ inputs : List JSVal, bitsOrUndefined inputs → evaluate p.2 inputs = g inputs := by
  intro p hp
  simp only [RECIPES, List.mem_cons, List.not_mem_nil, or_false] at hp
  rcases hp with rfl | rfl | rfl | rfl | rfl | rfl | rfl | rfl | rfl | rfl | rfl | rfl | rfl
    | rfl | rfl | rfl | rfl | rfl | rfl
  all_goals exact ⟨_, rfl, fun _ _ => rfl⟩

/-- Witness for C10 at the basic_gates recipe with an undefined entry. -/
theorem catalog_logic_total_witness :
    ∃ g : List JSVal → List JSVal,
      basic_gates.logic = some (fun i => Except.ok (g i)) ∧
      evaluate basic_gates [JSVal.undefined] = g [JSVal.undefined] := by
  obtain ⟨g, h1, h2⟩ :=
    catalog_logic_total ("basic_gates", basic_gates) (List.mem_cons_self _ _)
  exact ⟨g, h1, h2 [JSVal.undefined] (by decide)⟩

/-- Counterexample to C3: the evaluator performs no arity check.  On the
empty input vector (shorter than the one declared input of not_using_nand),
evaluate returns [true] (the logical NOT of an undefined read), a truthy
value, not an all-zero vector. -/
theorem arity_mismatch_not_all_zero :
    evaluate not_using_nand [] = [JSVal.boolean true] ∧
    toBool (JSVal.boolean true) = true ∧
    ([] : List JSVal).length ≠ not_using_nand.inputLabels.length := by
  decide

/-- C3 as amended: on an input vector of bits whose length disagrees with the
declared input arity, evaluate never throws and never takes its catch branch;
it returns the value of the logic function applied to the mismatched vector,
with missing entries read as undefined (which need not be all-zero). -/
theorem arity_mismatch_no_throw :
    ∀ p ∈ RECIPES, ∀ inputs : List JSVal, bitsOrUndefined inputs →
      inputs.length ≠ p.2.inputLabels.length →
      ∃ g : List JSVal → List JSVal,
        p.2.logic = some (fun i => Except.ok (g i)) ∧
        evaluate p.2 inputs = g inputs := by
  intro p hp inputs _ _
  simp only [RECIPES, List.mem_cons, List.not_mem_nil, or_false] at hp
  rcases hp with rfl | rfl | rfl | rfl | rfl | rfl | rfl | rfl | rfl | rfl | rfl | rfl | rfl
    | rfl | rfl | rfl | rfl | rfl | rfl
  all_goals exact ⟨_, rfl, rfl⟩

/-- Witness for the amended C3 at not_using_nand with the empty input. -/
theorem arity_mismatch_no_throw_witness :
    ∃ g : List JSVal → List JSVal,
      not_using_nand.logic = some (fun i => Except.ok (g i)) ∧
      evaluate not_using_nand [] = g [] := by
  obtain ⟨g, h1, h2⟩ :=
    arity_mismatch_no_throw ("not_using_nand", not_using_nand) (by simp [RECIPES])
      [] (by decide) (by decide)
  exact ⟨g, h1, h2⟩

/-- The chip list for the C5 counterexample: one 14-pin 7400. -/
def chips_ce : List Chip := [⟨"u1", "7400", 25⟩]

/-- The wire for the C5 counterexample: its source references pin 15 of the
7400, outside the valid 1..14 pin range of a 14-pin package. -/
def wire_ce : WireSpec := ⟨.pinRef 0 15, .led 0, "WIRE_GREEN"⟩

/-- Counterexample to C5: a wire whose ChipPin endpoint names an existing
chip but a pin number outside the valid range (pin 15 of a 14-pin 7400) is
NOT excluded from the rendered wire set: getCoords extends the top-row
formula without a range check and the wire renders at the resulting
coordinate. -/
theorem invalid_pin_not_excluded :
    maxBottom "7400" * 2 < 15 ∧ renderWire chips_ce wire_ce ≠ none := by
  refine ⟨by decide, ?_⟩
  have hmb : maxBottom "7400" = 7 := by decide
  norm_num [renderWire, wire_ce, chips_ce, resolveS, resolveE, getCoords, listGetInt,
    Wire, hmb, OFF_X, OFF_Y, CELL, iq]
  exact Option.some_ne_none _

/-- C5 as amended: a wire one of whose endpoints is a ChipPin reference to a
nonexistent chip (chipIndex outside the chips array) is excluded from the
rendered wire set, and its exclusion leaves the rendering of all other wires
unchanged.  (A ChipPin reference to an out-of-range pin of an existing chip
is not excluded; see the counterexample.) -/
theorem invalid_chip_wire_excluded (chips : List Chip) (w : WireSpec)
    (h : ∃ c p, (w.s = Endpoint.pinRef c p ∨ w.e = Endpoint.pinRef c p) ∧
        listGetInt chips c = none) :
    renderWire chips w = none ∧
    ∀ before after : List WireSpec,
      renderedWires chips (before ++ w :: after) =
        renderedWires chips before ++ renderedWires chips after := by
  obtain ⟨c, p, hor, hnone⟩ := h
  have hw : renderWire chips w = none := by
    rcases hor with hs | he
    · simp [renderWire, resolveS, hs, getCoords, hnone, Wire]
    · simp [renderWire, resolveE, he, getCoords, hnone, Wire]
  refine ⟨hw, fun before after => ?_⟩
  simp [renderedWires, List.filterMap_append, List.filterMap_cons, hw]

/-- A well-formed wire used alongside the C5 witness. -/
def wire_ok : WireSpec := ⟨.sw 0, .led 0, "WIRE_BLUE"⟩

/-- Witness for the amended C5: on an empty chip list, a wire referencing
chip 0 is dropped and the remaining wires render as before. -/
theorem invalid_chip_wire_excluded_witness :
    renderWire [] ⟨Endpoint.pinRef 0 1, Endpoint.led 0, "WIRE_GREEN"⟩ = none ∧
    renderedWires [] [wire_ok, ⟨Endpoint.pinRef 0 1, Endpoint.led 0, "WIRE_GREEN"⟩] =
      renderedWires [] [wire_ok] ++ renderedWires [] [] := by
  have h := invalid_chip_wire_excluded [] ⟨Endpoint.pinRef 0 1, Endpoint.led 0, "WIRE_GREEN"⟩
    ⟨0, 1, Or.inl rfl, rfl⟩
  exact ⟨h.1, h.2 [wire_ok] []⟩

/-- Unfolding of the pin branch of getCoords for an existing chip and a
nonzero pin number. -/
theorem getCoords_pin_eq (chips : List Chip) (c p : Int) (chip : Chip)
    (hc : listGetInt chips c = some chip) (hp0 : p ≠ 0) :
    getCoords (CoordKey.pin c p) chips =
      if p ≤ maxBottom chip.type then
        ⟨OFF_X + iq chip.x * CELL + iq (p - 1) * CELL + 5,
         OFF_Y + 6 * CELL + (9/2) * CELL⟩
      else
        ⟨OFF_X + iq chip.x * CELL + iq (maxBottom chip.type * 2 - p) * CELL + 5,
         OFF_Y + 6 * CELL - (1/2) * CELL⟩ := by
  simp only [getCoords, hc]
  simp [hp0]

/-- C6: for a chip of any catalog type and a pin number p in the valid range
1..2N, where N = maxBottom of the type (8 for the 16-pin parts 7476, 74153,
74139, 7485, and 7 otherwise): a pin p at most N lands on the bottom row
(the larger y) with horizontal offset proportional to p - 1, and a pin p
above N lands on the top row (the smaller y) with horizontal offset
proportional to 2N - p, i.e. numbered in reverse along the top row. -/
theorem pin_row_geometry (chips : List Chip) (c : Int) (chip : Chip)
    (hc : listGetInt chips c = some chip) (p : Int)
    (hp1 : 1 ≤ p) (_hp2 : p ≤ maxBottom chip.type * 2) :
    (p ≤ maxBottom chip.type →
      getCoords (CoordKey.pin c p) chips =
        ⟨OFF_X + iq chip.x * CELL + iq (p - 1) * CELL + 5,
         OFF_Y + 6 * CELL + (9/2) * CELL⟩) ∧
    (maxBottom chip.type < p →
      getCoords (CoordKey.pin c p) chips =
        ⟨OFF_X + iq chip.x * CELL + iq (maxBottom chip.type * 2 - p) * CELL + 5,
         OFF_Y + 6 * CELL - (1/2) * CELL⟩) ∧
    OFF_Y + 6 * CELL - (1/2) * CELL < OFF_Y + 6 * CELL + (9/2) * CELL := by
  have hp0 : p ≠ 0 := by omega
  have hg := getCoords_pin_eq chips c p chip hc hp0
  refine ⟨fun h => ?_, fun h => ?_, by norm_num [OFF_Y, CELL]⟩
  · rw [hg, if_pos h]
  · rw [hg, if_neg (by omega)]

/-- The chip list for the C6 witness: one 16-pin 74153. -/
def chips_w : List Chip := [⟨"u1", "74153", 25⟩]

/-- Witness for C6: pin 9 of a 74153 (N = 8) lands on the top row with
offset 2N - 9 = 7. -/
theorem pin_row_geometry_witness :
    getCoords (CoordKey.pin 0 9) chips_w =
      ⟨OFF_X + iq 25 * CELL + iq (maxBottom "74153" * 2 - 9) * CELL + 5,
       OFF_Y + 6 * CELL - (1/2) * CELL⟩ :=
  (pin_row_geometry chips_w 0 ⟨"u1", "74153", 25⟩ rfl 9 (by decide) (by decide)).2.1
    (by decide)

/-- Counterexample to C7: the Wire component tests only the x components of
its endpoints; an endpoint with a zero y but nonzero x does not suppress the
wire, contrary to the claim that a zero-valued x or y component renders
nothing. -/
theorem zero_y_endpoint_still_rendered :
    Wire (some ⟨1, 0⟩) (some ⟨1, 1⟩) ≠ none := by
  decide

/-- C7 as amended: the router renders nothing exactly when an endpoint is
missing or has a zero x component; otherwise it produces the 3-segment
orthogonal (vertical, horizontal, vertical) path. -/
theorem wire_render_suppression (p1 p2 : Option Coord) :
    ((p1 = none ∨ p2 = none ∨ (∃ q, p1 = some q ∧ q.x = 0) ∨
        (∃ q, p2 = some q ∧ q.x = 0)) →
      Wire p1 p2 = none) ∧
    (∀ q1 q2 : Coord, p1 = some q1 → p2 = some q2 → q1.x ≠ 0 → q2.x ≠ 0 →
      Wire p1 p2 = some (mkPath q1 q2) ∧ orthogonal3 (mkPath q1 q2)) := by
  constructor
  · intro h
    rcases h with h | h | ⟨q, hq, hx⟩ | ⟨q, hq, hx⟩
    · subst h
      cases p2 <;> rfl
    · subst h
      cases p1 <;> rfl
    · subst hq
      cases p2 <;> simp [Wire, hx]
    · subst hq
      cases p1 <;> simp [Wire, hx]
  · intro q1 q2 h1 h2 hx1 hx2
    subst h1
    subst h2
    exact ⟨by simp [Wire, hx1, hx2], rfl, rfl, rfl⟩

/-- Witness for the amended C7: a missing endpoint is suppressed, and two
fully resolved endpoints with nonzero x produce the orthogonal path. -/
theorem wire_render_suppression_witness :
    Wire (none : Option Coord) (some ⟨1, 1⟩) = none ∧
    (Wire (some ⟨1, 2⟩) (some ⟨3, 4⟩) = some (mkPath ⟨1, 2⟩ ⟨3, 4⟩) ∧
      orthogonal3 (mkPath ⟨1, 2⟩ ⟨3, 4⟩)) :=
  ⟨(wire_render_suppression none (some ⟨1, 1⟩)).1 (Or.inl rfl),
   (wire_render_suppression (some ⟨1, 2⟩) (some ⟨3, 4⟩)).2 ⟨1, 2⟩ ⟨3, 4⟩ rfl rfl
     (by norm_num) (by norm_num)⟩

end CircuitGen




